import Mathlib

/-!
Shallow embedding of `src/vs/code/electron-sandbox/issue/issueReporterModel.ts`
(the IssueReporterModel presentation-model class) and proofs about its
observable behavior: record defaults and shallow merge, the `serialize`
Markdown template, and the conditional section generators.

JavaScript conventions captured by the embedding:
- a `boolean | undefined` value is `Option Bool`; `undefined` and `false`
  are falsy, only `true` is truthy (`truthy`);
- template interpolation of a possibly-absent string renders the literal
  text "undefined" when the value is absent (`interp`);
- an array is always truthy, even when empty (relevant to the
  `!this._data.enabledNonThemeExtesions` check);
- `Object.assign(base, patch)` is a field-by-field overwrite by the keys
  present in the patch (`objectAssign`).
-/

/-- Modelled from the spec: the `IssueType` enum imported from
`vs/platform/issue/common/issue` (not part of the sources); the spec's data
model gives it exactly the three values Bug, PerformanceIssue, FeatureRequest. -/
inductive IssueType where
  | Bug
  | PerformanceIssue
  | FeatureRequest
deriving DecidableEq, Repr

/-- Modelled from the spec: extension descriptor (name, publisher, version),
supplied by the external extension registry. -/
structure IssueReporterExtensionData where
  name : String
  publisher : String
  version : String
deriving DecidableEq, Repr

/-- Modelled from the spec: Linux desktop-environment fields of `SystemInfo`. -/
structure LinuxEnv where
  desktopSession : String
  xdgCurrentDesktop : String
  xdgSessionDesktop : String
  xdgSessionType : String
deriving DecidableEq, Repr

/-- Modelled from the spec: the machine-info part of a successful remote
diagnostic entry (hostName is stored on the entry itself). -/
structure RemoteMachineInfo where
  os : String
  cpus : String
  memory : String
  vmHint : String
deriving DecidableEq, Repr

/-- Modelled from the spec: a per-remote-connection diagnostic entry, either
an error message or a machine-info record; the design notes ask for a tagged
union with exactly these two cases. -/
inductive RemoteData where
  | error (errorMessage : String)
  | diagnostics (hostName : String) (machineInfo : RemoteMachineInfo)
deriving DecidableEq, Repr

/-- Modelled from the spec: the external discriminant check
`isRemoteDiagnosticError` distinguishing the error variant. -/
def isRemoteDiagnosticError : RemoteData → Bool
  | RemoteData.error _ => true
  | RemoteData.diagnostics _ _ => false

/-- Modelled from the spec: `SystemInfo` supplied by the diagnostics
provider; `gpuStatus` is a key-value mapping whose iteration order is its
insertion order, modelled as an ordered association list. -/
structure SystemInfo where
  cpus : String
  gpuStatus : List (String × String)
  load : String
  memory : String
  processArgs : String
  screenReader : String
  vmHint : String
  linuxEnv : Option LinuxEnv
  remoteData : List RemoteData
deriving DecidableEq, Repr

/-- Modelled from the spec: the structured `versionInfo` record with the
two fields read by `serialize`. -/
structure VersionInfo where
  vscodeVersion : String
  os : String
deriving DecidableEq, Repr

/-- Modelled from the spec: settings-search bookkeeping entries
(pass-through state, never serialized). -/
structure ISettingSearchResult where
  key : String
deriving DecidableEq, Repr

/-- The `IssueReporterData` record. Optional (`?`) fields are `Option`s;
the six include-flags are plain booleans. The misspelled field names
(`numberOfThemeExtesions`, `enabledNonThemeExtesions`) are the source's. -/
structure IssueReporterData where
  issueType : IssueType
  issueDescription : Option String
  versionInfo : Option VersionInfo
  systemInfo : Option SystemInfo
  processInfo : Option String
  workspaceInfo : Option String
  includeSystemInfo : Bool
  includeWorkspaceInfo : Bool
  includeProcessInfo : Bool
  includeExtensions : Bool
  includeSearchedExtensions : Bool
  includeSettingsSearchDetails : Bool
  numberOfThemeExtesions : Option Nat
  allExtensions : List IssueReporterExtensionData
  enabledNonThemeExtesions : Option (List IssueReporterExtensionData)
  extensionsDisabled : Option Bool
  fileOnExtension : Option Bool
  selectedExtension : Option IssueReporterExtensionData
  actualSearchResults : Option (List ISettingSearchResult)
  query : Option String
  filterResultCount : Option Nat
deriving DecidableEq, Repr

/-- A `Partial<IssueReporterData>`: each field is additionally wrapped in
`Option`, `none` meaning the key is absent from the object literal. -/
structure PartialIssueReporterData where
  issueType : Option IssueType
  issueDescription : Option (Option String)
  versionInfo : Option (Option VersionInfo)
  systemInfo : Option (Option SystemInfo)
  processInfo : Option (Option String)
  workspaceInfo : Option (Option String)
  includeSystemInfo : Option Bool
  includeWorkspaceInfo : Option Bool
  includeProcessInfo : Option Bool
  includeExtensions : Option Bool
  includeSearchedExtensions : Option Bool
  includeSettingsSearchDetails : Option Bool
  numberOfThemeExtesions : Option (Option Nat)
  allExtensions : Option (List IssueReporterExtensionData)
  enabledNonThemeExtesions : Option (Option (List IssueReporterExtensionData))
  extensionsDisabled : Option (Option Bool)
  fileOnExtension : Option (Option Bool)
  selectedExtension : Option (Option IssueReporterExtensionData)
  actualSearchResults : Option (Option (List ISettingSearchResult))
  query : Option (Option String)
  filterResultCount : Option (Option Nat)
deriving DecidableEq, Repr

/-- The partial record with no keys present (the empty object literal). -/
def emptyPartial : PartialIssueReporterData where
  issueType := none
  issueDescription := none
  versionInfo := none
  systemInfo := none
  processInfo := none
  workspaceInfo := none
  includeSystemInfo := none
  includeWorkspaceInfo := none
  includeProcessInfo := none
  includeExtensions := none
  includeSearchedExtensions := none
  includeSettingsSearchDetails := none
  numberOfThemeExtesions := none
  allExtensions := none
  enabledNonThemeExtesions := none
  extensionsDisabled := none
  fileOnExtension := none
  selectedExtension := none
  actualSearchResults := none
  query := none
  filterResultCount := none

/-- `Object.assign(base, patch)`: every key present in `patch` overwrites
the corresponding field of `base`; absent keys leave the field unchanged. -/
def objectAssign (base : IssueReporterData) (patch : PartialIssueReporterData) :
    IssueReporterData where
  issueType := patch.issueType.getD base.issueType
  issueDescription := patch.issueDescription.getD base.issueDescription
  versionInfo := patch.versionInfo.getD base.versionInfo
  systemInfo := patch.systemInfo.getD base.systemInfo
  processInfo := patch.processInfo.getD base.processInfo
  workspaceInfo := patch.workspaceInfo.getD base.workspaceInfo
  includeSystemInfo := patch.includeSystemInfo.getD base.includeSystemInfo
  includeWorkspaceInfo := patch.includeWorkspaceInfo.getD base.includeWorkspaceInfo
  includeProcessInfo := patch.includeProcessInfo.getD base.includeProcessInfo
  includeExtensions := patch.includeExtensions.getD base.includeExtensions
  includeSearchedExtensions := patch.includeSearchedExtensions.getD base.includeSearchedExtensions
  includeSettingsSearchDetails := patch.includeSettingsSearchDetails.getD base.includeSettingsSearchDetails
  numberOfThemeExtesions := patch.numberOfThemeExtesions.getD base.numberOfThemeExtesions
  allExtensions := patch.allExtensions.getD base.allExtensions
  enabledNonThemeExtesions := patch.enabledNonThemeExtesions.getD base.enabledNonThemeExtesions
  extensionsDisabled := patch.extensionsDisabled.getD base.extensionsDisabled
  fileOnExtension := patch.fileOnExtension.getD base.fileOnExtension
  selectedExtension := patch.selectedExtension.getD base.selectedExtension
  actualSearchResults := patch.actualSearchResults.getD base.actualSearchResults
  query := patch.query.getD base.query
  filterResultCount := patch.filterResultCount.getD base.filterResultCount

/-- JavaScript truthiness of a `boolean | undefined` value: only `true`
is truthy. -/
def truthy (o : Option Bool) : Bool := o.getD false

/-- JavaScript template interpolation of a possibly-absent string:
an absent value renders as the literal text "undefined". -/
def interp (o : Option String) : String := o.getD "undefined"

namespace IssueReporterModel

/-- The `defaultData` object built in the constructor. -/
def defaultData : IssueReporterData where
  issueType := IssueType.Bug
  issueDescription := none
  versionInfo := none
  systemInfo := none
  processInfo := none
  workspaceInfo := none
  includeSystemInfo := true
  includeWorkspaceInfo := true
  includeProcessInfo := true
  includeExtensions := true
  includeSearchedExtensions := true
  includeSettingsSearchDetails := true
  numberOfThemeExtesions := none
  allExtensions := []
  enabledNonThemeExtesions := none
  extensionsDisabled := none
  fileOnExtension := none
  selectedExtension := none
  actualSearchResults := none
  query := none
  filterResultCount := none

/-- The constructor: `Object.assign(defaultData, initialData)` when initial
data is supplied, `defaultData` otherwise. -/
def construct (initialData : Option PartialIssueReporterData) : IssueReporterData :=
  match initialData with
  | some p => objectAssign defaultData p
  | none => defaultData

/-- `getData()` returns the live record. -/
def getData (d : IssueReporterData) : IssueReporterData := d

/-- `update(newData)`: `Object.assign(this._data, newData)`. -/
def update (d : IssueReporterData) (newData : PartialIssueReporterData) : IssueReporterData :=
  objectAssign d newData

/-- `getRemoteOSes()`: one line per remote diagnostic entry when the list is
non-empty, newline-joined with one trailing newline; empty string otherwise. -/
def getRemoteOSes (d : IssueReporterData) : String :=
  match d.systemInfo with
  | some si =>
    if si.remoteData.length ≠ 0 then
      String.intercalate "\n" (si.remoteData.map (fun remote =>
        if isRemoteDiagnosticError remote then
          match remote with
          | RemoteData.error errorMessage => errorMessage
          | RemoteData.diagnostics _ _ => ""
        else
          match remote with
          | RemoteData.error _ => ""
          | RemoteData.diagnostics _ machineInfo =>
              "Remote OS version: " ++ machineInfo.os)) ++ "\n"
    else ""
  | none => ""

/-- `fileOnExtension()`: the issue-type membership check followed by `&&`
with the record's flag; JavaScript `true && x` evaluates to `x`, so the
result type is `boolean | undefined`. -/
def fileOnExtension (d : IssueReporterData) : Option Bool :=
  let fileOnExtensionSupported :=
    d.issueType = IssueType.Bug
    ∨ d.issueType = IssueType.PerformanceIssue
    ∨ d.issueType = IssueType.FeatureRequest
  if fileOnExtensionSupported then d.fileOnExtension else some false

/-- `getExtensionVersion()`: the extension-version line, or empty string. -/
def getExtensionVersion (d : IssueReporterData) : String :=
  if truthy (fileOnExtension d) && d.selectedExtension.isSome then
    "\nExtension version: " ++ interp (d.selectedExtension.map (fun e => e.version))
  else ""

/-- `getIssueTypeTitle()`. -/
def getIssueTypeTitle (d : IssueReporterData) : String :=
  if d.issueType = IssueType.Bug then "Bug"
  else if d.issueType = IssueType.PerformanceIssue then "Performance Issue"
  else "Feature Request"

/-- `generateSystemInfoMd()`: collapsible table of system fields, optional
Linux-environment rows, then one appended block per remote entry. -/
def generateSystemInfoMd (d : IssueReporterData) : String :=
  let md := "<details>\n<summary>System Info</summary>\n\n|Item|Value|\n|---|---|\n"
  let md :=
    match d.systemInfo with
    | none => md
    | some si =>
      let md := md ++ "|CPUs|" ++ si.cpus ++ "|\n|GPU Status|"
        ++ String.intercalate "<br>"
            (si.gpuStatus.map (fun kv => kv.1 ++ ": " ++ kv.2))
        ++ "|\n|Load (avg)|" ++ si.load
        ++ "|\n|Memory (System)|" ++ si.memory
        ++ "|\n|Process Argv|" ++ si.processArgs
        ++ "|\n|Screen Reader|" ++ si.screenReader
        ++ "|\n|VM|" ++ si.vmHint ++ "|"
      let md :=
        match si.linuxEnv with
        | none => md
        | some le => md
            ++ "\n|DESKTOP_SESSION|" ++ le.desktopSession
            ++ "|\n|XDG_CURRENT_DESKTOP|" ++ le.xdgCurrentDesktop
            ++ "|\n|XDG_SESSION_DESKTOP|" ++ le.xdgSessionDesktop
            ++ "|\n|XDG_SESSION_TYPE|" ++ le.xdgSessionType ++ "|"
      si.remoteData.foldl (fun md remote =>
        if isRemoteDiagnosticError remote then
          match remote with
          | RemoteData.error errorMessage => md ++ "\n\n" ++ errorMessage
          | RemoteData.diagnostics _ _ => md
        else
          match remote with
          | RemoteData.error _ => md
          | RemoteData.diagnostics hostName machineInfo => md
              ++ "\n\n|Item|Value|\n|---|---|\n|Remote|" ++ hostName
              ++ "|\n|OS|" ++ machineInfo.os
              ++ "|\n|CPUs|" ++ machineInfo.cpus
              ++ "|\n|Memory (System)|" ++ machineInfo.memory
              ++ "|\n|VM|" ++ machineInfo.vmHint ++ "|") md
  md ++ "\n</details>"

/-- `generateProcessInfoMd()`: collapsible code-fenced block around the raw
`processInfo` value. -/
def generateProcessInfoMd (d : IssueReporterData) : String :=
  "<details>\n<summary>Process Info</summary>\n\n```\n"
  ++ interp d.processInfo
  ++ "\n```\n\n</details>\n"

/-- `generateWorkspaceInfoMd()`: collapsible code-fenced block around the
raw `workspaceInfo` value; the source's template literal has a stray
semicolon after the interpolation, inside the fence, reproduced here. -/
def generateWorkspaceInfoMd (d : IssueReporterData) : String :=
  "<details>\n<summary>Workspace Info</summary>\n\n```\n"
  ++ interp d.workspaceInfo
  ++ ";\n```\n\n</details>\n"

/-- The `themeExclusionStr` local of `generateExtensionsMd`: a suffix line
exactly when `numberOfThemeExtesions` is truthy (present and non-zero). -/
def themeExclusionStr (d : IssueReporterData) : String :=
  match d.numberOfThemeExtesions with
  | some n => if n ≠ 0 then "\n(" ++ toString n ++ " theme extensions excluded)" else ""
  | none => ""

/-- One extension table row: `{name}|{publisher truncated to 3 chars}|{version}`. -/
def extensionRow (e : IssueReporterExtensionData) : String :=
  e.name ++ "|" ++ e.publisher.take 3 ++ "|" ++ e.version

/-- `generateExtensionsMd()`. The `!this._data.enabledNonThemeExtesions`
check is falsy only when the field is absent: a JavaScript array is truthy
even when empty. -/
def generateExtensionsMd (d : IssueReporterData) : String :=
  if truthy d.extensionsDisabled then "Extensions disabled"
  else
    match d.enabledNonThemeExtesions with
    | none => "Extensions: none" ++ themeExclusionStr d
    | some exts =>
      let tableHeader := "Extension|Author (truncated)|Version\n---|---|---"
      let table := String.intercalate "\n" (exts.map extensionRow)
      "<details><summary>Extensions (" ++ toString exts.length ++ ")</summary>\n\n"
      ++ tableHeader ++ "\n" ++ table ++ "\n" ++ themeExclusionStr d
      ++ "\n\n</details>"

/-- `getInfos()`: the conditional info sections, appended in fixed order
under their guards. The extensions guard reads the raw `fileOnExtension`
field (not the method). -/
def getInfos (d : IssueReporterData) : String :=
  let info := ""
  let info :=
    if (d.issueType = IssueType.Bug ∨ d.issueType = IssueType.PerformanceIssue)
        ∧ d.includeSystemInfo = true ∧ d.systemInfo.isSome = true then
      info ++ generateSystemInfoMd d
    else info
  let info :=
    if d.issueType = IssueType.PerformanceIssue ∧ d.includeProcessInfo = true then
      info ++ generateProcessInfoMd d
    else info
  let info :=
    if d.issueType = IssueType.PerformanceIssue ∧ d.includeWorkspaceInfo = true then
      info ++ generateWorkspaceInfoMd d
    else info
  let info :=
    if (d.issueType = IssueType.Bug ∨ d.issueType = IssueType.PerformanceIssue)
        ∧ truthy d.fileOnExtension = false ∧ d.includeExtensions = true then
      info ++ generateExtensionsMd d
    else info
  info

/-- `serialize()`: the full Markdown template. -/
def serialize (d : IssueReporterData) : String :=
  "\nIssue Type: <b>" ++ getIssueTypeTitle d ++ "</b>\n\n"
  ++ interp d.issueDescription ++ "\n"
  ++ getExtensionVersion d ++ "\n"
  ++ "VS Code version: " ++ interp (d.versionInfo.map (fun v => v.vscodeVersion)) ++ "\n"
  ++ "OS version: " ++ interp (d.versionInfo.map (fun v => v.os)) ++ "\n"
  ++ getRemoteOSes d ++ "\n"
  ++ getInfos d ++ "\n"
  ++ "<!-- generated by issue reporter -->"

end IssueReporterModel

/-- Substring containment on character lists, by scanning positions. -/
def listContainsSub (sub : List Char) : List Char → Bool
  | [] => sub.isEmpty
  | c :: cs => sub.isPrefixOf (c :: cs) || listContainsSub sub cs

/-- Substring containment on strings. -/
def strContainsSub (s sub : String) : Bool := listContainsSub sub.data s.data

example : strContainsSub "hello world" "lo w" = true := by decide
example : strContainsSub "hello world" "low" = false := by decide

open IssueReporterModel

/-! ### Concrete records used as test inputs and witnesses -/

/-- A performance-issue record whose process and workspace dumps are both
the text "trace-data". -/
def c1Record : IssueReporterData :=
  { defaultData with
      issueType := IssueType.PerformanceIssue
      processInfo := some "trace-data"
      workspaceInfo := some "trace-data" }

/-- The extension descriptor of the spec's extension-version test. -/
def c2Ext : IssueReporterExtensionData :=
  { name := "ExtName", publisher := "PublisherName", version := "1.2.3" }

/-- Bug record, fileOnExtension flag set, extension version 1.2.3. -/
def c2RecordTrue : IssueReporterData :=
  { defaultData with
      issueType := IssueType.Bug
      fileOnExtension := some true
      selectedExtension := some c2Ext }

/-- Same record with the fileOnExtension flag false. -/
def c2RecordFalse : IssueReporterData :=
  { c2RecordTrue with fileOnExtension := some false }

/-- The extension descriptor of the spec's extensions-table test. -/
def fooExt : IssueReporterExtensionData :=
  { name := "Foo", publisher := "PublisherName", version := "0.1" }

/-- A fully populated `SystemInfo` with one error and one successful
remote diagnostic entry. -/
def c8si : SystemInfo :=
  { cpus := "Intel x8"
    gpuStatus := [("2d_canvas", "enabled"), ("webgl", "enabled")]
    load := "1, 2, 3"
    memory := "16GB"
    processArgs := "--inspect"
    screenReader := "no"
    vmHint := "0%"
    linuxEnv := none
    remoteData :=
      [RemoteData.error "Connection error",
       RemoteData.diagnostics "host1"
        { os := "Linux x64", cpus := "ARM x4", memory := "8GB", vmHint := "50%" }] }

/-- A feature request with every optional section's data present and every
include-flag left at its default `true`. -/
def c3Record : IssueReporterData :=
  { defaultData with
      issueType := IssueType.FeatureRequest
      issueDescription := some "Please add feature X"
      versionInfo := some { vscodeVersion := "1.40.0", os := "Linux" }
      systemInfo := some c8si
      processInfo := some "trace-data"
      workspaceInfo := some "trace-data"
      numberOfThemeExtesions := some 2
      enabledNonThemeExtesions := some [fooExt] }

/-- The spec's extensions-table test record. -/
def c6Record : IssueReporterData :=
  { defaultData with
      enabledNonThemeExtesions := some [fooExt]
      numberOfThemeExtesions := some 2 }

/-- The extensions-table test record with extensions additionally disabled. -/
def c6BadRecord : IssueReporterData :=
  { c6Record with extensionsDisabled := some true }

/-- Extensions disabled while every other extension-related field is
populated. -/
def c7Record : IssueReporterData :=
  { defaultData with
      extensionsDisabled := some true
      enabledNonThemeExtesions := some [fooExt]
      numberOfThemeExtesions := some 2
      allExtensions := [fooExt, c2Ext]
      selectedExtension := some c2Ext }

/-- A record holding `c8si` as its system info. -/
def c8Record : IssueReporterData :=
  { defaultData with systemInfo := some c8si }

/-- `enabledNonThemeExtesions` present but empty, with a theme-extension
count. -/
def c9Record : IssueReporterData :=
  { defaultData with
      enabledNonThemeExtesions := some []
      numberOfThemeExtesions := some 2 }

/-- The spec's description of `fileOnExtension()`: it reads the record's
`fileOnExtension` field. -/
def fileOnExtensionSpec (d : IssueReporterData) : Option Bool :=
  d.fileOnExtension

/-! ### Claim theorems -/

/-- Claim C1. The process-info and workspace-info generators at issueType =
PerformanceIssue, includeProcessInfo = true, processInfo = workspaceInfo =
"trace-data": the process-info block's fenced body is exactly "trace-data"
and that block appears in the serialized output, but the workspace-info
block's fenced body is "trace-data;" — the source template appends a stray
semicolon — so the workspace half of the claim fails on the code. -/
theorem processInfo_body_exact_but_workspaceInfo_body_has_semicolon :
    generateProcessInfoMd c1Record
      = "<details>\n<summary>Process Info</summary>\n\n```\ntrace-data\n```\n\n</details>\n"
    ∧ generateWorkspaceInfoMd c1Record
      = "<details>\n<summary>Workspace Info</summary>\n\n```\ntrace-data;\n```\n\n</details>\n"
    ∧ strContainsSub (serialize c1Record) "```\ntrace-data\n```" = true
    ∧ strContainsSub (serialize c1Record) "```\ntrace-data;\n```" = true
    ∧ strContainsSub (generateWorkspaceInfoMd c1Record) "```\ntrace-data\n```" = false :=
  ⟨rfl, rfl, by decide, by decide, by decide⟩

/-- Claim C10. `fileOnExtension()` is extensionally equal to reading the
record's `fileOnExtension` field: the issue-type membership check holds for
all three enum values, so the JavaScript `true && field` returns the field
itself (`undefined` stays `undefined`, never `false`). -/
theorem fileOnExtension_reads_field (d : IssueReporterData) :
    fileOnExtension d = fileOnExtensionSpec d := by
  cases h : d.issueType <;> simp [fileOnExtension, fileOnExtensionSpec, h]

/-- Claim C7. When `extensionsDisabled` is true, `generateExtensionsMd`
returns exactly the literal "Extensions disabled", whatever the other
extension-related fields hold. -/
theorem extensionsDisabled_literal (d : IssueReporterData)
    (h : d.extensionsDisabled = some true) :
    generateExtensionsMd d = "Extensions disabled" := by
  simp [generateExtensionsMd, truthy, h]

/-- Witness for C7 at a record whose extension list, theme count, selected
extension and allExtensions are all populated. -/
theorem extensionsDisabled_literal_witness :
    generateExtensionsMd c7Record = "Extensions disabled" :=
  extensionsDisabled_literal c7Record rfl

/-- Claim C3. For a feature request, `getInfos()` — the only part of
`serialize()` that can emit the System Info, Process Info, Workspace Info
or Extensions sections — is the empty string regardless of the include
flags and all other fields; on a concrete feature-request record with all
flags true and all section data present, the serialized output contains no
collapsible block and no extensions text at all. -/
theorem featureRequest_no_info_sections (d : IssueReporterData)
    (h : d.issueType = IssueType.FeatureRequest) :
    getInfos d = ""
    ∧ strContainsSub (serialize c3Record) "<details>" = false
    ∧ strContainsSub (serialize c3Record) "Extensions" = false
    ∧ strContainsSub (serialize c3Record) "System Info" = false
    ∧ strContainsSub (serialize c3Record) "Process Info" = false
    ∧ strContainsSub (serialize c3Record) "Workspace Info" = false :=
  ⟨by simp [getInfos, h], by decide, by decide, by decide, by decide, by decide⟩

/-- Witness for C3: the general part applied to the concrete
feature-request record. -/
theorem featureRequest_no_info_sections_witness :
    getInfos c3Record = "" :=
  (featureRequest_no_info_sections c3Record rfl).1

/-- Claim C2. The extension-version line: whenever `fileOnExtension()` is
true and an extension is selected, the serialized output contains
`Extension version: {version}` preceded by a newline; in every other state
the extension-version contribution is the empty string. On the spec's
concrete Bug records, version 1.2.3 appears as a full line when the flag is
true and no such line exists when the flag is false. -/
theorem extensionVersion_line_iff (d : IssueReporterData) :
    (∀ e, d.selectedExtension = some e → fileOnExtension d = some true →
      ∃ a b, serialize d = a ++ ("\nExtension version: " ++ e.version) ++ b)
    ∧ (truthy (fileOnExtension d) = false ∨ d.selectedExtension = none →
      getExtensionVersion d = "")
    ∧ strContainsSub (serialize c2RecordTrue) "\nExtension version: 1.2.3\n" = true
    ∧ strContainsSub (serialize c2RecordFalse) "Extension version:" = false := by
  refine ⟨?_, ?_, by decide, by decide⟩
  · intro e hsel hfl
    refine ⟨"\nIssue Type: <b>" ++ getIssueTypeTitle d ++ "</b>\n\n"
        ++ interp d.issueDescription ++ "\n",
      "\nVS Code version: " ++ interp (d.versionInfo.map (fun v => v.vscodeVersion)) ++ "\n"
      ++ "OS version: " ++ interp (d.versionInfo.map (fun v => v.os)) ++ "\n"
      ++ getRemoteOSes d ++ "\n" ++ getInfos d ++ "\n"
      ++ "<!-- generated by issue reporter -->", ?_⟩
    simp [serialize, getExtensionVersion, hsel, hfl, truthy, interp, String.append_assoc]
  · intro h
    rcases h with h | h <;> simp [getExtensionVersion, h]

/-- Witness for C2: the general positive part applied to the concrete
flag-true Bug record. -/
theorem extensionVersion_line_iff_witness :
    ∃ a b, serialize c2RecordTrue = a ++ ("\nExtension version: " ++ c2Ext.version) ++ b :=
  (extensionVersion_line_iff c2RecordTrue).1 c2Ext rfl rfl

/-- Claim C8. The remote-OS segment: with system info present and a
non-empty `remoteData`, it is the newline-join, in order, of each entry's
error message (error variant) or `Remote OS version: {machineInfo.os}`
(machine-info variant), plus one trailing newline; it is empty when
`remoteData` is empty or system info is absent. -/
theorem remoteOSes_segment (d : IssueReporterData) :
    (∀ si, d.systemInfo = some si → si.remoteData ≠ [] →
      getRemoteOSes d = String.intercalate "\n" (si.remoteData.map (fun r =>
        match r with
        | RemoteData.error errorMessage => errorMessage
        | RemoteData.diagnostics _ machineInfo =>
            "Remote OS version: " ++ machineInfo.os)) ++ "\n")
    ∧ (∀ si, d.systemInfo = some si → si.remoteData = [] → getRemoteOSes d = "")
    ∧ (d.systemInfo = none → getRemoteOSes d = "") := by
  refine ⟨?_, ?_, ?_⟩
  · intro si h hne
    simp only [getRemoteOSes, h]
    rw [if_pos]
    · congr 1
      apply congrArg
      apply List.map_congr_left
      intro r _
      cases r <;> simp [isRemoteDiagnosticError]
    · simpa using hne
  · intro si h hemp
    simp [getRemoteOSes, h, hemp]
  · intro h
    simp [getRemoteOSes, h]

/-- Witness for C8: one error entry and one machine-info entry produce the
two expected lines and a trailing newline. -/
theorem remoteOSes_segment_witness :
    getRemoteOSes c8Record = "Connection error\nRemote OS version: Linux x64\n" :=
  ((remoteOSes_segment c8Record).1 c8si rfl (by decide)).trans (by decide)

/-- Counterexample to claim C6 as stated: a record whose
`enabledNonThemeExtesions` is present and non-empty but which also has
`extensionsDisabled = true` renders the literal "Extensions disabled" and
no table row at all, because the disabled check runs first. -/
theorem extensionsTable_counterexample :
    c6BadRecord.enabledNonThemeExtesions = some [fooExt]
    ∧ generateExtensionsMd c6BadRecord = "Extensions disabled"
    ∧ strContainsSub (generateExtensionsMd c6BadRecord) "Foo|Pub|0.1" = false :=
  ⟨rfl, rfl, by decide⟩

/-- Claim C6, amended with "and extensionsDisabled is not truthy". With a
present, non-empty extension list and extensions not disabled, the block is
the collapsible table with one row `{name}|{publisher truncated to 3
chars}|{version}` per extension in order, followed by the theme-exclusion
suffix, which is `\n({n} theme extensions excluded)` exactly when
`numberOfThemeExtesions` is truthy; the spec's test inputs yield row
`Foo|Pub|0.1` and trailing `(2 theme extensions excluded)`. -/
theorem extensionsTable_rows (d : IssueReporterData)
    (l : List IssueReporterExtensionData)
    (hl : d.enabledNonThemeExtesions = some l) (_hne : l ≠ [])
    (hdis : truthy d.extensionsDisabled = false) :
    generateExtensionsMd d =
      "<details><summary>Extensions (" ++ toString l.length ++ ")</summary>\n\n"
      ++ "Extension|Author (truncated)|Version\n---|---|---" ++ "\n"
      ++ String.intercalate "\n"
          (l.map (fun e => e.name ++ "|" ++ e.publisher.take 3 ++ "|" ++ e.version))
      ++ "\n" ++ themeExclusionStr d ++ "\n\n</details>"
    ∧ (∀ n, d.numberOfThemeExtesions = some n → n ≠ 0 →
        themeExclusionStr d = "\n(" ++ toString n ++ " theme extensions excluded)")
    ∧ (d.numberOfThemeExtesions = none ∨ d.numberOfThemeExtesions = some 0 →
        themeExclusionStr d = "")
    ∧ strContainsSub (generateExtensionsMd c6Record) "Foo|Pub|0.1" = true
    ∧ strContainsSub (generateExtensionsMd c6Record) "\n(2 theme extensions excluded)" = true := by
  refine ⟨?_, ?_, ?_, by decide, by decide⟩
  · simp only [generateExtensionsMd, hdis, Bool.false_eq_true, if_false, hl]
    rfl
  · intro n hn hne0
    simp [themeExclusionStr, hn, hne0]
  · intro h
    rcases h with h | h <;> simp [themeExclusionStr, h]

/-- Witness for C6 (amended) at the spec's test record. -/
theorem extensionsTable_rows_witness :
    generateExtensionsMd c6Record =
      "<details><summary>Extensions (" ++ toString ([fooExt].length) ++ ")</summary>\n\n"
      ++ "Extension|Author (truncated)|Version\n---|---|---" ++ "\n"
      ++ String.intercalate "\n"
          ([fooExt].map (fun e => e.name ++ "|" ++ e.publisher.take 3 ++ "|" ++ e.version))
      ++ "\n" ++ themeExclusionStr c6Record ++ "\n\n</details>" :=
  (extensionsTable_rows c6Record [fooExt] rfl (by decide) rfl).1

/-- Claim C9. With `enabledNonThemeExtesions` present but empty (and
extensions not disabled), the block is the collapsible table titled
`Extensions (0)` with the header and zero rows plus the applicable
theme-exclusion suffix — not the "Extensions: none" branch, which is taken
only when the field is absent (a JavaScript array is truthy even when
empty). -/
theorem emptyExtensionList_renders_table (d : IssueReporterData)
    (hl : d.enabledNonThemeExtesions = some [])
    (hdis : truthy d.extensionsDisabled = false) :
    generateExtensionsMd d =
      "<details><summary>Extensions (0)</summary>\n\n"
      ++ "Extension|Author (truncated)|Version\n---|---|---" ++ "\n" ++ ""
      ++ "\n" ++ themeExclusionStr d ++ "\n\n</details>"
    ∧ strContainsSub (generateExtensionsMd c9Record) "Extensions: none" = false
    ∧ strContainsSub (generateExtensionsMd c9Record) "<summary>Extensions (0)</summary>" = true
    ∧ strContainsSub (generateExtensionsMd c9Record) "(2 theme extensions excluded)" = true := by
  refine ⟨?_, by decide, by decide, by decide⟩
  simp only [generateExtensionsMd, hdis, Bool.false_eq_true, if_false, hl]
  rfl

/-- Witness for C9 at the concrete empty-list record. -/
theorem emptyExtensionList_renders_table_witness :
    generateExtensionsMd c9Record =
      "<details><summary>Extensions (0)</summary>\n\n"
      ++ "Extension|Author (truncated)|Version\n---|---|---" ++ "\n" ++ ""
      ++ "\n" ++ themeExclusionStr c9Record ++ "\n\n</details>" :=
  (emptyExtensionList_renders_table c9Record rfl rfl).1

/-- Claim C4. A model constructed with no initial data has issueType Bug,
all six include-flags true and an empty allExtensions; and construction
with a partial record yields, field by field, the supplied value where the
key is present and the stated default where it is absent. -/
theorem construct_defaults_and_merge :
    ((getData (construct none)).issueType = IssueType.Bug
      ∧ (getData (construct none)).includeSystemInfo = true
      ∧ (getData (construct none)).includeWorkspaceInfo = true
      ∧ (getData (construct none)).includeProcessInfo = true
      ∧ (getData (construct none)).includeExtensions = true
      ∧ (getData (construct none)).includeSearchedExtensions = true
      ∧ (getData (construct none)).includeSettingsSearchDetails = true
      ∧ (getData (construct none)).allExtensions = [])
    ∧ (∀ p : PartialIssueReporterData,
      (getData (construct (some p))).issueType = p.issueType.getD IssueType.Bug
      ∧ (getData (construct (some p))).issueDescription = p.issueDescription.getD none
      ∧ (getData (construct (some p))).versionInfo = p.versionInfo.getD none
      ∧ (getData (construct (some p))).systemInfo = p.systemInfo.getD none
      ∧ (getData (construct (some p))).processInfo = p.processInfo.getD none
      ∧ (getData (construct (some p))).workspaceInfo = p.workspaceInfo.getD none
      ∧ (getData (construct (some p))).includeSystemInfo = p.includeSystemInfo.getD true
      ∧ (getData (construct (some p))).includeWorkspaceInfo = p.includeWorkspaceInfo.getD true
      ∧ (getData (construct (some p))).includeProcessInfo = p.includeProcessInfo.getD true
      ∧ (getData (construct (some p))).includeExtensions = p.includeExtensions.getD true
      ∧ (getData (construct (some p))).includeSearchedExtensions
          = p.includeSearchedExtensions.getD true
      ∧ (getData (construct (some p))).includeSettingsSearchDetails
          = p.includeSettingsSearchDetails.getD true
      ∧ (getData (construct (some p))).numberOfThemeExtesions
          = p.numberOfThemeExtesions.getD none
      ∧ (getData (construct (some p))).allExtensions = p.allExtensions.getD []
      ∧ (getData (construct (some p))).enabledNonThemeExtesions
          = p.enabledNonThemeExtesions.getD none
      ∧ (getData (construct (some p))).extensionsDisabled = p.extensionsDisabled.getD none
      ∧ (getData (construct (some p))).fileOnExtension = p.fileOnExtension.getD none
      ∧ (getData (construct (some p))).selectedExtension = p.selectedExtension.getD none
      ∧ (getData (construct (some p))).actualSearchResults = p.actualSearchResults.getD none
      ∧ (getData (construct (some p))).query = p.query.getD none
      ∧ (getData (construct (some p))).filterResultCount = p.filterResultCount.getD none) :=
  ⟨⟨rfl, rfl, rfl, rfl, rfl, rfl, rfl, rfl⟩,
   fun _ => ⟨rfl, rfl, rfl, rfl, rfl, rfl, rfl, rfl, rfl, rfl, rfl,
             rfl, rfl, rfl, rfl, rfl, rfl, rfl, rfl, rfl, rfl⟩⟩

/-- Claim C5. For every record state and every single-field update, the
updated field reads back the new value and every other field is unchanged:
the result is exactly the record-with-one-field-replaced, stated once per
field of the record. -/
theorem update_single_field_frame (d : IssueReporterData) :
    (∀ v, getData (update d { emptyPartial with issueType := some v })
      = { d with issueType := v })
    ∧ (∀ v, getData (update d { emptyPartial with issueDescription := some v })
      = { d with issueDescription := v })
    ∧ (∀ v, getData (update d { emptyPartial with versionInfo := some v })
      = { d with versionInfo := v })
    ∧ (∀ v, getData (update d { emptyPartial with systemInfo := some v })
      = { d with systemInfo := v })
    ∧ (∀ v, getData (update d { emptyPartial with processInfo := some v })
      = { d with processInfo := v })
    ∧ (∀ v, getData (update d { emptyPartial with workspaceInfo := some v })
      = { d with workspaceInfo := v })
    ∧ (∀ v, getData (update d { emptyPartial with includeSystemInfo := some v })
      = { d with includeSystemInfo := v })
    ∧ (∀ v, getData (update d { emptyPartial with includeWorkspaceInfo := some v })
      = { d with includeWorkspaceInfo := v })
    ∧ (∀ v, getData (update d { emptyPartial with includeProcessInfo := some v })
      = { d with includeProcessInfo := v })
    ∧ (∀ v, getData (update d { emptyPartial with includeExtensions := some v })
      = { d with includeExtensions := v })
    ∧ (∀ v, getData (update d { emptyPartial with includeSearchedExtensions := some v })
      = { d with includeSearchedExtensions := v })
    ∧ (∀ v, getData (update d { emptyPartial with includeSettingsSearchDetails := some v })
      = { d with includeSettingsSearchDetails := v })
    ∧ (∀ v, getData (update d { emptyPartial with numberOfThemeExtesions := some v })
      = { d with numberOfThemeExtesions := v })
    ∧ (∀ v, getData (update d { emptyPartial with allExtensions := some v })
      = { d with allExtensions := v })
    ∧ (∀ v, getData (update d { emptyPartial with enabledNonThemeExtesions := some v })
      = { d with enabledNonThemeExtesions := v })
    ∧ (∀ v, getData (update d { emptyPartial with extensionsDisabled := some v })
      = { d with extensionsDisabled := v })
    ∧ (∀ v, getData (update d { emptyPartial with fileOnExtension := some v })
      = { d with fileOnExtension := v })
    ∧ (∀ v, getData (update d { emptyPartial with selectedExtension := some v })
      = { d with selectedExtension := v })
    ∧ (∀ v, getData (update d { emptyPartial with actualSearchResults := some v })
      = { d with actualSearchResults := v })
    ∧ (∀ v, getData (update d { emptyPartial with query := some v })
      = { d with query := v })
    ∧ (∀ v, getData (update d { emptyPartial with filterResultCount := some v })
      = { d with filterResultCount := v }) :=
  ⟨fun _ => rfl, fun _ => rfl, fun _ => rfl, fun _ => rfl, fun _ => rfl,
   fun _ => rfl, fun _ => rfl, fun _ => rfl, fun _ => rfl, fun _ => rfl,
   fun _ => rfl, fun _ => rfl, fun _ => rfl, fun _ => rfl, fun _ => rfl,
   fun _ => rfl, fun _ => rfl, fun _ => rfl, fun _ => rfl, fun _ => rfl,
   fun _ => rfl⟩
